import Mathlib

/-!
Verification of the Sale/Payment/Refund ledger of the Inventory_webapp
repository (Django app `inventoryApp`), as a shallow embedding in Lean.

Money values (Django `DecimalField`) are modelled as exact rationals `ℚ`:
every monetary value handled by the embedded operations is constructed via
Python `Decimal`, so the `isinstance(value, Decimal)` quantization fallback
in `Sale.save` is never taken on these code paths.  Integer quantities are
`Int` (Django `IntegerField`).  Randomness (`uuid` suffixes), clock values
(`timezone.now`) and autoincrement primary keys are passed as explicit
parameters.  Read-only collaborators that no claim touches (notifications,
pending/saved carts, message flashing) are projected away.
-/

namespace Inventory

/-- Choices of `Sale.payment_status` in models.py (`paid`, `partial`,
`unpaid`); the middle constructor is spelled `part_paid` here. -/
inductive PayStatus
  | paid
  | part_paid
  | unpaid
deriving DecidableEq

/-- Choices of `RefundRequest.status` in models.py. -/
inductive RStatus
  | pending
  | approved
  | declined
deriving DecidableEq

/-- `Product` row (models.py): only the fields the ledger operations touch. -/
structure Product where
  id : Nat
  name : String
  quantity : Int
deriving DecidableEq

/-- `Sale` row (models.py).  `created_at` is an abstract logical timestamp
used for the `order_by('-created_at')` queries. -/
structure Sale where
  id : Nat
  invoice_number : String
  customer_name : String
  customer_phone : String
  subtotal : ℚ
  discount : ℚ
  total : ℚ
  amount_paid : ℚ
  balance : ℚ
  payment_status : PayStatus
  created_at : Nat
deriving DecidableEq

/-- `SaleItem` row (models.py); `product` is nullable (`SET_NULL`). -/
structure SaleItem where
  id : Nat
  sale_id : Nat
  product_id : Option Nat
  product_name : String
  quantity : Int
  price : ℚ
  discount : ℚ
  total : ℚ
deriving DecidableEq

/-- `Payment` row (models.py). -/
structure Payment where
  sale_id : Nat
  amount : ℚ
  payment_method : String
  reference : String
deriving DecidableEq

/-- `StockMovement` row (models.py). -/
structure StockMovement where
  product_id : Nat
  movement_type : String
  quantity : Int
  reference : String
deriving DecidableEq

/-- `RefundRequest` row (models.py). -/
structure RefundRequest where
  id : Nat
  sale_id : Option Nat
  sale_item_id : Option Nat
  customer_name : String
  customer_phone : String
  amount : ℚ
  status : RStatus
  refund_processed : Bool
  reason : String
deriving DecidableEq

/-- `Refund` row (models.py); one-to-one with its `RefundRequest`. -/
structure Refund where
  sale_id : Option Nat
  refund_request_id : Nat
  amount : ℚ
deriving DecidableEq

/-- The relational store: the tables that participate in the ledger. -/
structure DB where
  products : List Product
  sales : List Sale
  saleItems : List SaleItem
  payments : List Payment
  stockMovements : List StockMovement
  refundRequests : List RefundRequest
  refunds : List Refund
deriving DecidableEq

/-- `Sale.save` (models.py, the second — overriding — definition):
recompute `balance = total - amount_paid`, clamp it at `0`, and rederive
`payment_status` from the clamped balance.  The `Decimal` quantization
branch is skipped because every field is already a `Decimal` (here: `ℚ`). -/
def saveSale (s : Sale) : Sale :=
  let b0 := s.total - s.amount_paid
  let b := if b0 < 0 then 0 else b0
  let st :=
    if b ≤ 0 then PayStatus.paid
    else if b < s.total then PayStatus.part_paid
    else PayStatus.unpaid
  { s with balance := b, payment_status := st }

/-- `SaleItem.save` (models.py): recompute `total = price*quantity - discount`. -/
def saveSaleItem (it : SaleItem) : SaleItem :=
  { it with total := it.price * (it.quantity : ℚ) - it.discount }

/-- `Refund.save` (models.py): clamp a negative amount to `0` (the
quantization branch is skipped: the amount is already a `Decimal`). -/
def saveRefund (r : Refund) : Refund :=
  { r with amount := if r.amount < 0 then 0 else r.amount }

/-- `Product.objects.get(id=pid)` on the current table. -/
def findProduct (db : DB) (pid : Nat) : Option Product :=
  db.products.find? (fun p => p.id == pid)

/-- `Sale.objects.get(id=sid)` on the current table. -/
def findSale (db : DB) (sid : Nat) : Option Sale :=
  db.sales.find? (fun s => s.id == sid)

/-- `SaleItem.objects.get(id=iid)` on the current table. -/
def findItem (db : DB) (iid : Nat) : Option SaleItem :=
  db.saleItems.find? (fun it => it.id == iid)

/-- `RefundRequest.objects.get(id=pk)` on the current table. -/
def findRR (db : DB) (pk : Nat) : Option RefundRequest :=
  db.refundRequests.find? (fun r => r.id == pk)

/-- Persisting a mutated `Product` object (`product.save()`): replace the
row with this primary key. -/
def updateProduct (ps : List Product) (pid : Nat) (f : Product → Product) :
    List Product :=
  ps.map (fun p => if p.id == pid then f p else p)

/-- Persisting a mutated `Sale` object (`sale.save()`). -/
def updateSale (ss : List Sale) (sid : Nat) (f : Sale → Sale) : List Sale :=
  ss.map (fun s => if s.id == sid then f s else s)

/-- Persisting a mutated `RefundRequest` object (`refund_request.save()`). -/
def updateRR (rs : List RefundRequest) (pk : Nat)
    (f : RefundRequest → RefundRequest) : List RefundRequest :=
  rs.map (fun r => if r.id == pk then f r else r)

/-- One line of the POSTed cart: `item = {product_id, quantity, price,
discount}` after `json.loads`; an absent `discount` is `0`
(`item.get('discount', 0)`). -/
structure CartLine where
  product_id : Nat
  quantity : Int
  price : ℚ
  discount : ℚ
deriving DecidableEq

/-- The POST body of `process_sale` after parsing.  `customer_name` and
`customer_phone` already carry the `data.get(..., '')` default; `discount`
is `none` when the key is absent (`'discount' in data`). -/
structure SaleRequest where
  items : List CartLine
  discount : Option ℚ
  amount_paid : ℚ
  customer_name : String
  customer_phone : String
  payment_method : String
  reference : String
deriving DecidableEq

/-- Result of `process_sale`: the success JSON carries the sale id and
invoice number; every error response leaves the store exactly as the
branch that produced it left it. -/
inductive SaleOutcome
  | ok (db : DB) (sale_id : Nat) (invoice : String)
  | err (db : DB) (msg : String)
deriving DecidableEq

/-- Result of the remaining ledger views. -/
inductive Res
  | ok (db : DB)
  | err (db : DB) (msg : String)
deriving DecidableEq

/-- subtotal = Σ price·quantity over the cart (views.py lines 112-115). -/
def subtotalOf (items : List CartLine) : ℚ :=
  items.foldl (fun acc l => acc + l.price * (l.quantity : ℚ)) 0

/-- Σ of the per-item discounts (views.py lines 118-121). -/
def itemDiscountsOf (items : List CartLine) : ℚ :=
  items.foldl (fun acc l => acc + l.discount) 0

/-- The insufficient-stock error message of views.py line 140. -/
def insufficientMsg (p : Product) (l : CartLine) : String :=
  "Insufficient stock for " ++ p.name ++ ". Available: " ++
    toString p.quantity ++ ", Requested: " ++ toString l.quantity

/-- The product-not-found error message of views.py line 143. -/
def notFoundMsg (pid : Nat) : String :=
  "Product ID " ++ toString pid ++ " not found"

/-- The stock-validation loop of `process_sale` (views.py lines 134-143):
for each line re-fetch the product and compare its quantity against the
requested one; return the first error, `none` when every line passes. -/
def validateStock (db : DB) : List CartLine → Option String
  | [] => none
  | l :: rest =>
    match findProduct db l.product_id with
    | none => some (notFoundMsg l.product_id)
    | some p =>
      if p.quantity < l.quantity then some (insufficientMsg p l)
      else validateStock db rest

/-- Result of the sale-item creation loop; the code runs it with no
enclosing transaction, so a failure keeps whatever was already written. -/
inductive LoopRes
  | done (db : DB) (nextItemId : Nat)
  | failed (db : DB) (msg : String)
deriving DecidableEq

/-- One iteration of the per-line write loop of `process_sale` (views.py
lines 172-199): insert the `SaleItem` (its `save` recomputes the total),
decrement `product.quantity` and persist it, and append the `out`
`StockMovement`. -/
def sellLineStep (sid iid : Nat) (inv : String) (db : DB) (l : CartLine)
    (p : Product) : DB :=
  let item := saveSaleItem
    { id := iid, sale_id := sid, product_id := some l.product_id,
      product_name := p.name, quantity := l.quantity, price := l.price,
      discount := l.discount, total := 0 }
  let mv : StockMovement :=
    { product_id := l.product_id, movement_type := "out",
      quantity := l.quantity, reference := inv }
  let deduct := fun (q : Product) => { q with quantity := q.quantity - l.quantity }
  let db1 := { db with saleItems := db.saleItems ++ [item] }
  let db2 := { db1 with products := updateProduct db1.products l.product_id deduct }
  { db2 with stockMovements := db2.stockMovements ++ [mv] }

/-- The per-line write loop of `process_sale` (views.py lines 172-199):
each line re-fetches the product, then runs `sellLineStep`.  A vanished
product raises `Product.DoesNotExist` (dead after `validateStock`, since
ids are never removed mid-loop). -/
def createSaleItems (sid : Nat) (inv : String) :
    DB → Nat → List CartLine → LoopRes
  | db, iid, [] => .done db iid
  | db, iid, l :: rest =>
    match findProduct db l.product_id with
    | none => .failed db "Product matching query does not exist."
    | some p => createSaleItems sid inv (sellLineStep sid iid inv db l p) (iid + 1) rest

/-- The invoice-number generation of views.py lines 145-147:
`f"INV-{today_str}-{uuid.uuid4().hex[:6].upper()}"`, a single draw with no
collision check. -/
def invoiceOf (today suffix : String) : String :=
  "INV-" ++ today ++ "-" ++ suffix

/-- The sale-level discount (views.py lines 123-126): the posted
`discount` when the key is present, otherwise the sum of item discounts. -/
def saleDiscountOf (req : SaleRequest) : ℚ :=
  match req.discount with
  | some d => d
  | none => itemDiscountsOf req.items

/-- `total = subtotal - sale_discount` (views.py line 128). -/
def totalOf (req : SaleRequest) : ℚ :=
  subtotalOf req.items - saleDiscountOf req

/-- The pre-save `payment_status` of views.py lines 149-155 (recomputed by
`Sale.save` at creation). -/
def preStatus (balance total : ℚ) : PayStatus :=
  if balance ≤ 0 then PayStatus.paid
  else if balance < total then PayStatus.part_paid
  else PayStatus.unpaid

/-- The `Sale.objects.create(...)` row of views.py lines 157-169 (`create`
runs the model's `save`, which rederives balance and status). -/
def newSaleRow (req : SaleRequest) (today suffix : String) (sid now : Nat) :
    Sale :=
  saveSale
    { id := sid, invoice_number := invoiceOf today suffix,
      customer_name := req.customer_name,
      customer_phone := req.customer_phone,
      subtotal := subtotalOf req.items, discount := saleDiscountOf req,
      total := totalOf req, amount_paid := req.amount_paid,
      balance := totalOf req - req.amount_paid,
      payment_status := preStatus (totalOf req - req.amount_paid) (totalOf req),
      created_at := now }

/-- The initial `Payment.objects.create` row of views.py lines 202-210. -/
def initialPayment (req : SaleRequest) (sid : Nat) : Payment :=
  { sale_id := sid, amount := req.amount_paid,
    payment_method := req.payment_method, reference := req.reference }

/-- `process_sale` (views.py lines 93-258).  `today` is
`timezone.now().strftime('%Y%m%d')`, `suffix` the `uuid4` fragment, `sid`
and `firstItemId` the autoincrement keys, `now` the logical clock.  The
unique constraint on `Sale.invoice_number` makes `Sale.objects.create`
raise `IntegrityError` on a duplicate, which the blanket `except` turns
into an error response; at that point nothing has been written yet. -/
def process_sale (db : DB) (req : SaleRequest) (today suffix : String)
    (sid firstItemId : Nat) (now : Nat) : SaleOutcome :=
  if req.items.isEmpty then .err db "No items in cart"
  else
    match validateStock db req.items with
    | some msg => .err db msg
    | none =>
      if db.sales.any (fun s => s.invoice_number == invoiceOf today suffix) then
        .err db "UNIQUE constraint failed: sales.invoice_number"
      else
        let sale := newSaleRow req today suffix sid now
        let db1 := { db with sales := db.sales ++ [sale] }
        match createSaleItems sid (invoiceOf today suffix) db1 firstItemId req.items with
        | .failed dbp msg => .err dbp msg
        | .done db2 _ =>
          if req.amount_paid > 0 then
            .ok { db2 with payments := db2.payments ++ [initialPayment req sid] } sid (invoiceOf today suffix)
          else
            .ok db2 sid (invoiceOf today suffix)

/-- `record_payment` (views.py lines 693-766): fetch the sale (404 when
absent), reject a non-positive amount and an amount above the current
balance, append the `Payment`, bump `amount_paid`, and persist the sale
(`Sale.save` rederives balance and status; the manual recomputation at
lines 724-729 is overwritten by it).  Currency formatting inside the
error strings is not reproduced. -/
def record_payment (db : DB) (sale_id : Nat) (amount : ℚ)
    (method reference : String) : Res :=
  match findSale db sale_id with
  | none => .err db "404: sale not found"
  | some sale =>
    if amount ≤ 0 then .err db "Amount must be greater than 0"
    else if sale.balance < amount then .err db "Amount cannot exceed balance"
    else
      let pay : Payment :=
        { sale_id := sale_id, amount := amount, payment_method := method,
          reference := reference }
      let dbp := { db with payments := db.payments ++ [pay] }
      let s1 := { sale with amount_paid := sale.amount_paid + amount }
      let s2 := { s1 with balance := s1.total - s1.amount_paid }
      let st := if s2.balance ≤ (0 : ℚ) then PayStatus.paid else PayStatus.part_paid
      let s3 := { s2 with payment_status := st }
      let s4 := saveSale s3
      .ok { dbp with sales := updateSale dbp.sales sale_id (fun _ => s4) }

/-- Case-insensitive string equality: Django `__iexact`. -/
def iexact (a b : String) : Bool :=
  a.toLower == b.toLower

/-- The customer-match filter of views.py lines 1490-1500:
`customer_name__iexact` OR `customer_phone__iexact`. -/
def matchesCustomer (rr : RefundRequest) (s : Sale) : Bool :=
  iexact s.customer_name rr.customer_name ||
    iexact s.customer_phone rr.customer_phone

/-- `order_by('-created_at').first()`: the row with the largest
`created_at` (the earliest-listed one on a tie). -/
def mostRecent (ss : List Sale) : Option Sale :=
  ss.foldl
    (fun acc s =>
      match acc with
      | none => some s
      | some b => if b.created_at < s.created_at then some s else some b)
    none

/-- Sale resolution of `approve_refund_request` (views.py lines 1484-1506):
prefer the directly linked sale; otherwise the most recent customer match
with `amount_paid >= amount`, falling back to the most recent match
without the amount filter. -/
def resolveSale (db : DB) (rr : RefundRequest) : Option Sale :=
  match rr.sale_id with
  | some sid => findSale db sid
  | none =>
    let matching := db.sales.filter (fun s => matchesCustomer rr s)
    match mostRecent (matching.filter
        (fun s => decide (rr.amount ≤ s.amount_paid))) with
    | some s => some s
    | none => mostRecent matching

/-- The item-scoped inventory adjustment of views.py lines 1548-1565: when
the request carries a `sale_item` whose `product` still exists, return the
item's quantity to stock and record one `in` `StockMovement` referencing
the refund; otherwise no inventory change. -/
def restockStep (db : DB) (rr : RefundRequest) (pk : Nat) : DB :=
  match rr.sale_item_id with
  | none => db
  | some iid =>
    match findItem db iid with
    | none => db
    | some it =>
      match it.product_id with
      | none => db
      | some pid =>
        match findProduct db pid with
        | none => db
        | some _ =>
          let restock := fun (q : Product) => { q with quantity := q.quantity + it.quantity }
          let mv : StockMovement :=
            { product_id := pid, movement_type := "in",
              quantity := it.quantity,
              reference := "REFUND-" ++ toString pk }
          let db1 := { db with products := updateProduct db.products pid restock }
          { db1 with stockMovements := db1.stockMovements ++ [mv] }

/-- `approve_refund_request` (views.py lines 1466-1599).  Write order as in
the source: `Refund` row (its `save` clamps a negative amount), re-link and
save the request, debit the sale and save it (`Sale.save` rederives
balance/status over the manual lines 1529-1537), mark the request
approved and processed, restock an item-scoped refund (when the item still
references a product) with its `in` `StockMovement`, and append the
negative `refund` `Payment`. -/
def approve_refund_request (db : DB) (pk : Nat) (isAdmin : Bool) : Res :=
  if !isAdmin then .err db "Only admins can approve refunds"
  else
    match findRR db pk with
    | none => .err db "Refund request not found"
    | some rr =>
      if rr.status ≠ RStatus.pending then
        .err db "This refund request has already been processed"
      else if rr.refund_processed then
        .err db "This refund has already been processed"
      else
        match resolveSale db rr with
        | none => .err db ("No matching sale found for customer: " ++
            rr.customer_name)
        | some sale =>
          if sale.amount_paid < rr.amount then
            .err db "Sale has insufficient paid amount"
          else
            let refund := saveRefund
              { sale_id := some sale.id, refund_request_id := pk,
                amount := rr.amount }
            let dbA := { db with refunds := db.refunds ++ [refund] }
            let rr1 := { rr with sale_id := some sale.id }
            let dbB := { dbA with refundRequests := updateRR dbA.refundRequests pk (fun _ => rr1) }
            let s1 := { sale with amount_paid := sale.amount_paid - rr.amount }
            let s2 := { s1 with balance := s1.total - s1.amount_paid }
            let st :=
              if s2.balance ≤ (0 : ℚ) then PayStatus.paid
              else if s2.balance < s2.total then PayStatus.part_paid
              else PayStatus.unpaid
            let s3 := { s2 with payment_status := st }
            let s4 := saveSale s3
            let dbC := { dbB with sales := updateSale dbB.sales sale.id (fun _ => s4) }
            let rr2 := { rr1 with status := RStatus.approved, refund_processed := true }
            let dbD := { dbC with refundRequests := updateRR dbC.refundRequests pk (fun _ => rr2) }
            let dbE := restockStep dbD rr pk
            let pay : Payment :=
              { sale_id := sale.id, amount := -rr.amount,
                payment_method := "refund",
                reference := "REFUND-" ++ toString pk }
            let dbF := { dbE with payments := dbE.payments ++ [pay] }
            .ok dbF

/-- `decline_refund_request` (views.py lines 1601-1629): admin-only, only
while the request is still pending; sets `status='declined'`. -/
def decline_refund_request (db : DB) (pk : Nat) (isAdmin : Bool) : Res :=
  if !isAdmin then .err db "Only admins can decline refunds"
  else
    match findRR db pk with
    | none => .err db "Refund request not found"
    | some rr =>
      if rr.status ≠ RStatus.pending then
        .err db "This refund request has already been processed"
      else
        let toDeclined := fun (r : RefundRequest) => { r with status := RStatus.declined }
        .ok { db with refundRequests := updateRR db.refundRequests pk toDeclined }

/-- The `Payment` rows of one sale. -/
def paymentsFor (db : DB) (sid : Nat) : List Payment :=
  db.payments.filter (fun p => p.sale_id == sid)

/-- Σ `Payment.amount` over one sale's rows within a payment list. -/
def sumFor (ps : List Payment) (sid : Nat) : ℚ :=
  ((ps.filter (fun p => p.sale_id == sid)).map Payment.amount).sum

/-- Σ `Payment.amount` over one sale's rows (`aggregate(Sum('amount'))`). -/
def paySum (db : DB) (sid : Nat) : ℚ :=
  sumFor db.payments sid

/-- The `Refund` rows spawned by one request. -/
def refundsFor (db : DB) (pk : Nat) : List Refund :=
  db.refunds.filter (fun r => r.refund_request_id == pk)

/-- The store a `process_sale` call leaves behind, success or failure. -/
def saleOutDB : SaleOutcome → DB
  | .ok db _ _ => db
  | .err db _ => db

/-- The store one of the other ledger views leaves behind. -/
def resDB : Res → DB
  | .ok db => db
  | .err db _ => db

/-- The store the sale-item loop leaves behind. -/
def loopDB : LoopRes → DB
  | .done db _ => db
  | .failed db _ => db

/-- Did `process_sale` answer with the success JSON? -/
def isOkS : SaleOutcome → Bool
  | .ok _ _ _ => true
  | .err _ _ => false

/-- Did the view succeed? -/
def isOkR : Res → Bool
  | .ok _ => true
  | .err _ _ => false

/-- The spec's derivation of `payment_status`: `paid` when the balance is
zero, `partial` when it is strictly between zero and the total, `unpaid`
otherwise. -/
def statusSpec (balance total : ℚ) : PayStatus :=
  if balance = 0 then PayStatus.paid
  else if 0 < balance ∧ balance < total then PayStatus.part_paid
  else PayStatus.unpaid

/-- The spec's per-sale invariant: the persisted balance is the clamped
difference, and the status is derived from it. -/
abbrev saleInv (s : Sale) : Prop :=
  s.balance = max (s.total - s.amount_paid) 0 ∧
    s.payment_status = statusSpec s.balance s.total

/-- The spec's payment-reconciliation invariant: every sale's `amount_paid`
equals the sum of its `Payment` rows (refunds included as negatives). -/
abbrev payInv (db : DB) : Prop :=
  ∀ s ∈ db.sales, s.amount_paid = paySum db s.id

/-! ### Helper lemmas -/

/-- `find?` commutes with a rowwise update that preserves the searched key. -/
theorem find?_map_of_pred {α : Type} (g : α → α) (p : α → Bool)
    (hg : ∀ x, p (g x) = p x) :
    ∀ l : List α, (l.map g).find? p = (l.find? p).map g := by
  intro l
  induction l with
  | nil => simp
  | cons a t ih =>
    by_cases h : p a = true
    · rw [List.map_cons, List.find?_cons_of_pos _ (by rw [hg]; exact h),
        List.find?_cons_of_pos _ h]
      rfl
    · rw [List.map_cons, List.find?_cons_of_neg _ (by rw [hg]; simpa using h),
        List.find?_cons_of_neg _ (by simpa using h), ih]

/-- `findProduct` after a product update: the searched row is the updated
original, provided the update preserves ids. -/
theorem findProduct_update (ps : List Product) (pid : Nat)
    (f : Product → Product) (hf : ∀ x, (f x).id = x.id) (pid' : Nat) :
    (updateProduct ps pid f).find? (fun p => p.id == pid') =
      (ps.find? (fun p => p.id == pid')).map
        (fun p => if p.id == pid then f p else p) := by
  apply find?_map_of_pred
  intro x
  by_cases h : x.id == pid <;> simp [h, hf]

/-- The element produced by `find?` is a member satisfying the predicate. -/
theorem find?_mem_pred {α : Type} {l : List α} {p : α → Bool} {a : α}
    (h : l.find? p = some a) : a ∈ l ∧ p a = true :=
  ⟨List.mem_of_find?_eq_some h, List.find?_some h⟩

/-- The sale-item loop never touches the sales, payments, refund-request
or refund tables. -/
theorem createSaleItems_frame (sid : Nat) (inv : String) :
    ∀ (items : List CartLine) (db : DB) (iid : Nat),
      (loopDB (createSaleItems sid inv db iid items)).sales = db.sales ∧
      (loopDB (createSaleItems sid inv db iid items)).payments = db.payments ∧
      (loopDB (createSaleItems sid inv db iid items)).refundRequests = db.refundRequests ∧
      (loopDB (createSaleItems sid inv db iid items)).refunds = db.refunds := by
  intro items
  induction items with
  | nil => intro db iid; simp [createSaleItems, loopDB]
  | cons l rest ih =>
    intro db iid
    simp only [createSaleItems]
    cases hfp : findProduct db l.product_id with
    | none => simp [loopDB]
    | some p => simpa using ih _ (iid + 1)

/-- The sale-item loop does not touch product ids: a product found before
the loop body is still found (updated) after it. -/
theorem findProduct_isSome_update (ps : List Product) (pid : Nat)
    (f : Product → Product) (hf : ∀ x, (f x).id = x.id) (pid' : Nat) :
    ((updateProduct ps pid f).find? (fun p => p.id == pid')).isSome =
      (ps.find? (fun p => p.id == pid')).isSome := by
  rw [findProduct_update ps pid f hf pid']
  cases ps.find? (fun p => p.id == pid') <;> simp

/-- When every cart line's product exists, the sale-item loop completes
(`Product.DoesNotExist` cannot fire mid-loop: ids are never removed). -/
theorem createSaleItems_done (sid : Nat) (inv : String) :
    ∀ (items : List CartLine) (db : DB) (iid : Nat),
      (∀ l ∈ items, (findProduct db l.product_id).isSome) →
      ∃ db2 n, createSaleItems sid inv db iid items = .done db2 n := by
  intro items
  induction items with
  | nil => intro db iid _; exact ⟨db, iid, rfl⟩
  | cons l rest ih =>
    intro db iid h
    have hl := h l (by simp)
    cases hfp : findProduct db l.product_id with
    | none => rw [hfp] at hl; simp at hl
    | some p =>
      simp only [createSaleItems, hfp]
      apply ih
      intro l' hl'
      have h' := h l' (by simp [hl'])
      unfold findProduct at h' ⊢
      show ((updateProduct db.products l.product_id
        (fun q => { q with quantity := q.quantity - l.quantity })).find?
          (fun p => p.id == l'.product_id)).isSome = true
      rw [findProduct_isSome_update db.products l.product_id
        (fun q => { q with quantity := q.quantity - l.quantity })
        (fun x => rfl) l'.product_id]
      exact h'

/-- Characterization of a passing stock validation. -/
theorem validateStock_none_iff (db : DB) :
    ∀ items : List CartLine, (validateStock db items = none ↔
      ∀ l ∈ items, ∃ p, findProduct db l.product_id = some p ∧
        ¬(p.quantity < l.quantity)) := by
  intro items
  induction items with
  | nil => simp [validateStock]
  | cons l rest ih =>
    simp only [validateStock]
    cases hfp : findProduct db l.product_id with
    | none =>
      simp only [List.forall_mem_cons]
      constructor
      · intro h; cases h
      · rintro ⟨⟨p, hp, -⟩, -⟩; rw [hfp] at hp; cases hp
    | some p =>
      by_cases hq : p.quantity < l.quantity
      · simp only [if_pos hq, List.forall_mem_cons]
        constructor
        · intro h; cases h
        · rintro ⟨⟨p', hp', hq'⟩, -⟩
          rw [hfp] at hp'; cases hp'; exact absurd hq hq'
      · simp only [if_neg hq, List.forall_mem_cons, ih]
        constructor
        · intro h; exact ⟨⟨p, hfp, hq⟩, h⟩
        · rintro ⟨-, h⟩; exact h

theorem saveSale_id (s : Sale) : (saveSale s).id = s.id := rfl

theorem saveSale_total (s : Sale) : (saveSale s).total = s.total := rfl

theorem saveSale_amount_paid (s : Sale) :
    (saveSale s).amount_paid = s.amount_paid := rfl

theorem saveSale_customer_name (s : Sale) :
    (saveSale s).customer_name = s.customer_name := rfl

theorem saveSale_customer_phone (s : Sale) :
    (saveSale s).customer_phone = s.customer_phone := rfl

theorem saveSale_invoice (s : Sale) :
    (saveSale s).invoice_number = s.invoice_number := rfl

theorem saveSale_subtotal (s : Sale) : (saveSale s).subtotal = s.subtotal := rfl

theorem saveSale_balance (s : Sale) :
    (saveSale s).balance =
      if s.total - s.amount_paid < 0 then 0 else s.total - s.amount_paid := rfl

/-- `Sale.save` establishes the spec's balance/status invariant. -/
theorem saveSale_saleInv (s : Sale) : saleInv (saveSale s) := by
  unfold saleInv saveSale statusSpec
  dsimp only
  rcases lt_trichotomy (s.total - s.amount_paid) 0 with h | h | h
  · rw [if_pos h]
    refine ⟨(max_eq_right h.le).symm, ?_⟩
    rw [if_pos le_rfl, if_pos rfl]
  · rw [if_neg (by rw [h]; exact lt_irrefl 0)]
    refine ⟨by rw [h]; simp, ?_⟩
    rw [if_pos h.le, if_pos h]
  · rw [if_neg (by exact not_lt.2 h.le)]
    refine ⟨(max_eq_left h.le).symm, ?_⟩
    rw [if_neg (not_le.2 h), if_neg (ne_of_gt h)]
    by_cases hb : s.total - s.amount_paid < s.total
    · rw [if_pos hb, if_pos ⟨h, hb⟩]
    · rw [if_neg hb, if_neg (by rintro ⟨-, hb'⟩; exact hb hb')]

/-- `sumFor` distributes over append. -/
theorem sumFor_append (ps qs : List Payment) (x : Nat) :
    sumFor (ps ++ qs) x = sumFor ps x + sumFor qs x := by
  unfold sumFor
  rw [List.filter_append, List.map_append, List.sum_append]

/-- `sumFor` over a single row. -/
theorem sumFor_single (pay : Payment) (x : Nat) :
    sumFor [pay] x = if pay.sale_id == x then pay.amount else 0 := by
  unfold sumFor
  by_cases h : pay.sale_id == x <;> simp [List.filter, h]

/-- `sumFor` vanishes when no row belongs to the sale. -/
theorem sumFor_zero (ps : List Payment) (x : Nat)
    (h : ∀ p ∈ ps, p.sale_id ≠ x) : sumFor ps x = 0 := by
  unfold sumFor
  have hnil : ps.filter (fun p => p.sale_id == x) = [] := by
    rw [List.filter_eq_nil_iff]
    intro p hp
    simpa using h p hp
  rw [hnil]
  rfl

/-- `find?` skips a prefix containing no match. -/
theorem find?_append_right {α : Type} (p : α → Bool) :
    ∀ l1 l2 : List α, l1.find? p = none →
      (l1 ++ l2).find? p = l2.find? p := by
  intro l1
  induction l1 with
  | nil => intro l2 _; rfl
  | cons a t ih =>
    intro l2 h
    have ha : p a = false := by
      have := (List.find?_eq_none.1 h) a (by simp)
      simp [this]
    have ht : t.find? p = none :=
      List.find?_eq_none.2 (fun x hx => (List.find?_eq_none.1 h) x (by simp [hx]))
    rw [List.cons_append, List.find?_cons_of_neg _ (by simp [ha]), ih l2 ht]

/-- The pick of `order_by('-created_at').first()` is one of the rows. -/
theorem mostRecent_mem (ss : List Sale) (s : Sale)
    (h : mostRecent ss = some s) : s ∈ ss := by
  unfold mostRecent at h
  suffices haux : ∀ (l : List Sale) (acc : Option Sale) (x : Sale),
      (l.foldl (fun acc s =>
        match acc with
        | none => some s
        | some b => if b.created_at < s.created_at then some s else some b)
        acc) = some x → acc = some x ∨ x ∈ l by
    rcases haux ss none s h with h' | h'
    · cases h'
    · exact h'
  intro l
  induction l with
  | nil => intro acc x h'; exact Or.inl h'
  | cons a t ih =>
    intro acc x h'
    rcases ih _ x h' with h'' | h''
    · cases acc with
      | none =>
        simp only at h''
        exact Or.inr (by rw [← Option.some_inj.1 h'']; exact List.mem_cons_self a t)
      | some b =>
        simp only at h''
        by_cases hc : b.created_at < a.created_at
        · rw [if_pos hc] at h''
          exact Or.inr (by rw [← Option.some_inj.1 h'']; exact List.mem_cons_self a t)
        · rw [if_neg hc] at h''
          exact Or.inl h''
    · exact Or.inr (List.mem_cons_of_mem a h'')

/-- The sale `approve_refund_request` resolves is an existing row. -/
theorem resolveSale_mem (db : DB) (rr : RefundRequest) (s : Sale)
    (h : resolveSale db rr = some s) : s ∈ db.sales := by
  unfold resolveSale at h
  cases hsid : rr.sale_id with
  | some sid =>
    rw [hsid] at h
    exact (find?_mem_pred h).1
  | none =>
    rw [hsid] at h
    dsimp only at h
    cases hm : mostRecent ((db.sales.filter (fun s => matchesCustomer rr s)).filter
        (fun s => decide (rr.amount ≤ s.amount_paid))) with
    | some s' =>
      rw [hm] at h
      cases h
      have := mostRecent_mem _ _ hm
      exact List.mem_of_mem_filter (List.mem_of_mem_filter this)
    | none =>
      rw [hm] at h
      have := mostRecent_mem _ _ h
      exact List.mem_of_mem_filter this

/-- A passing prefix of the cart does not affect the validation result. -/
theorem validateStock_append (db : DB) :
    ∀ (pre rest : List CartLine),
      (∀ l ∈ pre, ∃ p, findProduct db l.product_id = some p ∧
        ¬(p.quantity < l.quantity)) →
      validateStock db (pre ++ rest) = validateStock db rest := by
  intro pre
  induction pre with
  | nil => intro rest _; rfl
  | cons l t ih =>
    intro rest h
    obtain ⟨p, hp, hq⟩ := h l (by simp)
    simp only [List.cons_append, validateStock, hp, if_neg hq]
    exact ih rest (fun l' hl' => h l' (by simp [hl']))

/-- The restock step only touches products and stock movements. -/
theorem restockStep_frame (db : DB) (rr : RefundRequest) (pk : Nat) :
    (restockStep db rr pk).sales = db.sales ∧
    (restockStep db rr pk).payments = db.payments ∧
    (restockStep db rr pk).refundRequests = db.refundRequests ∧
    (restockStep db rr pk).refunds = db.refunds ∧
    (restockStep db rr pk).saleItems = db.saleItems := by
  unfold restockStep
  split
  · exact ⟨rfl, rfl, rfl, rfl, rfl⟩
  split
  · exact ⟨rfl, rfl, rfl, rfl, rfl⟩
  split
  · exact ⟨rfl, rfl, rfl, rfl, rfl⟩
  split
  · exact ⟨rfl, rfl, rfl, rfl, rfl⟩
  exact ⟨rfl, rfl, rfl, rfl, rfl⟩

/-! ### Claim C1 -/

/-- Claim C1: any stock-check or validation failure in `process_sale`
aborts the whole operation with the store untouched — no Sale, SaleItem,
quantity change, StockMovement or Payment row — and a cart line asking
for more than is available is rejected with the insufficient-stock error
naming the available and requested quantities. -/
theorem c1_process_sale_failures_write_nothing
    (db : DB) (req : SaleRequest) (today suffix : String) (sid iid now : Nat) :
    (req.items = [] →
      process_sale db req today suffix sid iid now = .err db "No items in cart") ∧
    (∀ msg, validateStock db req.items = some msg →
      process_sale db req today suffix sid iid now = .err db msg) ∧
    (∀ pre l post p, req.items = pre ++ l :: post →
      (∀ l' ∈ pre, ∃ p', findProduct db l'.product_id = some p' ∧
        ¬(p'.quantity < l'.quantity)) →
      findProduct db l.product_id = some p →
      p.quantity < l.quantity →
      process_sale db req today suffix sid iid now =
        .err db (insufficientMsg p l)) := by
  refine ⟨?_, ?_, ?_⟩
  · intro h
    simp [process_sale, h]
  · intro msg hv
    have hne : req.items.isEmpty = false := by
      cases hi : req.items with
      | nil => rw [hi] at hv; simp [validateStock] at hv
      | cons a t => simp [hi]
    simp [process_sale, hne, hv]
  · intro pre l post p hitems hpre hfp hq
    have hv : validateStock db req.items = some (insufficientMsg p l) := by
      rw [hitems, validateStock_append db pre _ hpre]
      simp [validateStock, hfp, hq]
    have hne : req.items.isEmpty = false := by
      rw [hitems]; cases pre <;> simp
    simp [process_sale, hne, hv]

def wProduct : Product := { id := 1, name := "Widget", quantity := 3 }

def wLineC : CartLine := { product_id := 1, quantity := 5, price := 1000, discount := 0 }

def wDB : DB :=
  { products := [wProduct], sales := [], saleItems := [], payments := [],
    stockMovements := [], refundRequests := [], refunds := [] }

def wReqC : SaleRequest :=
  { items := [wLineC], discount := none, amount_paid := 0,
    customer_name := "", customer_phone := "", payment_method := "cash",
    reference := "" }

/-- Witness for C1: a product with quantity 3 and a cart line requesting 5
is rejected with the exact insufficient-stock message and an unchanged
store (Scenario C). -/
theorem c1_process_sale_failures_write_nothing_witness :
    process_sale wDB wReqC "20260101" "AAAAAA" 1 1 0 =
      .err wDB "Insufficient stock for Widget. Available: 3, Requested: 5" := by
  have h := (c1_process_sale_failures_write_nothing wDB wReqC "20260101" "AAAAAA"
      1 1 0).2.2 [] wLineC [] wProduct rfl (by simp) (by decide) (by decide)
  rw [h]
  rfl

/-! ### Claim C3 -/

/-- Claim C3: after any ledger operation (sale creation, payment
recording, refund approval) every persisted sale satisfies
`balance = max(total - amount_paid, 0)` with `payment_status` derived from
the balance ('paid' iff balance = 0, 'partial' iff 0 < balance < total,
'unpaid' otherwise), provided it held beforehand. -/
theorem c3_balance_status_invariant
    (db : DB) (req : SaleRequest) (today suffix : String)
    (sid iid now sale_pk : Nat) (amt : ℚ) (method reference : String)
    (pk : Nat) (isAdmin : Bool)
    (h : ∀ s ∈ db.sales, saleInv s) :
    (∀ s ∈ (saleOutDB (process_sale db req today suffix sid iid now)).sales,
      saleInv s) ∧
    (∀ s ∈ (resDB (record_payment db sale_pk amt method reference)).sales,
      saleInv s) ∧
    (∀ s ∈ (resDB (approve_refund_request db pk isAdmin)).sales, saleInv s) := by
  refine ⟨?_, ?_, ?_⟩
  · unfold process_sale
    by_cases hne : req.items.isEmpty
    · simp only [if_pos hne, saleOutDB]; exact h
    · simp only [if_neg hne]
      cases hv : validateStock db req.items with
      | some msg => simp only [saleOutDB]; exact h
      | none =>
        by_cases hcol : db.sales.any
            (fun s => s.invoice_number == invoiceOf today suffix)
        · simp only [if_pos hcol, saleOutDB]; exact h
        · simp only [if_neg hcol]
          have hmem : ∀ s ∈ db.sales ++ [newSaleRow req today suffix sid now],
              saleInv s := by
            intro s hs
            rcases List.mem_append.1 hs with hs | hs
            · exact h s hs
            · rw [List.mem_singleton.1 hs]
              exact saveSale_saleInv _
          have hfr := (createSaleItems_frame sid (invoiceOf today suffix)
            req.items { db with sales := db.sales ++ [newSaleRow req today suffix sid now] } iid).1
          cases hloop : createSaleItems sid (invoiceOf today suffix)
              { db with sales := db.sales ++ [newSaleRow req today suffix sid now] }
              iid req.items with
          | failed dbp msg =>
            rw [hloop] at hfr
            simp only [loopDB] at hfr
            simp only [saleOutDB]
            rw [hfr]
            exact hmem
          | done db2 n =>
            rw [hloop] at hfr
            simp only [loopDB] at hfr
            by_cases hpay : req.amount_paid > 0
            · simp only [if_pos hpay, saleOutDB]
              rw [hfr]
              exact hmem
            · simp only [if_neg hpay, saleOutDB]
              rw [hfr]
              exact hmem
  · unfold record_payment
    cases hfs : findSale db sale_pk with
    | none => simp only [resDB]; exact h
    | some sale =>
      by_cases h1 : amt ≤ 0
      · simp only [if_pos h1, resDB]; exact h
      · simp only [if_neg h1]
        by_cases h2 : sale.balance < amt
        · simp only [if_pos h2, resDB]; exact h
        · simp only [if_neg h2, resDB]
          intro s hs
          simp only [updateSale] at hs
          rcases List.mem_map.1 hs with ⟨s0, hs0, rfl⟩
          by_cases hid : s0.id == sale_pk
          · rw [if_pos hid]
            exact saveSale_saleInv _
          · rw [if_neg hid]
            exact h s0 hs0
  · intro s hs
    unfold approve_refund_request at hs
    split at hs
    · exact h s (by simpa [resDB] using hs)
    split at hs
    · exact h s (by simpa [resDB] using hs)
    split at hs
    · exact h s (by simpa [resDB] using hs)
    split at hs
    · exact h s (by simpa [resDB] using hs)
    split at hs
    · exact h s (by simpa [resDB] using hs)
    split at hs
    · exact h s (by simpa [resDB] using hs)
    simp only [resDB] at hs
    rw [(restockStep_frame _ _ _).1] at hs
    simp only [updateSale, List.mem_map] at hs
    rcases hs with ⟨s0, hs0, rfl⟩
    split
    · exact saveSale_saleInv _
    · exact h s0 hs0

def wSale7 : Sale :=
  { id := 7, invoice_number := "INV-X", customer_name := "A",
    customer_phone := "1", subtotal := 1000, discount := 0, total := 1000,
    amount_paid := 200, balance := 800, payment_status := .part_paid,
    created_at := 5 }

def wPay200 : Payment :=
  { sale_id := 7, amount := 200, payment_method := "cash", reference := "" }

def wDB3 : DB :=
  { products := [wProduct], sales := [wSale7], saleItems := [],
    payments := [wPay200],
    stockMovements := [], refundRequests := [], refunds := [] }

/-- Witness for C3: recording a 300 payment on a sale with total 1000 and
200 already paid leaves every persisted sale satisfying the
balance/status invariant. -/
theorem c3_balance_status_invariant_witness :
    ((resDB (record_payment wDB3 7 300 "cash" "")).sales.all
      (fun s => decide (saleInv s))) = true := by
  have hpre : ∀ s ∈ wDB3.sales, saleInv s := by
    intro s hs
    simp only [wDB3, List.mem_singleton] at hs
    subst hs
    constructor
    · show (800 : ℚ) = max ((1000 : ℚ) - 200) 0
      rw [max_eq_left (by norm_num)]
      norm_num
    · show PayStatus.part_paid = statusSpec 800 1000
      rw [statusSpec, if_neg (by norm_num), if_pos (by norm_num)]
  have hinv := (c3_balance_status_invariant wDB3 wReqC "20260101" "AAAAAA"
    1 1 0 7 300 "cash" "" 4 true hpre).2.1
  exact List.all_eq_true.2 (fun s hs => decide_eq_true (hinv s hs))

/-! ### Claim C2 -/

theorem sellLineStep_products (sid iid : Nat) (inv : String) (db : DB)
    (l : CartLine) (p : Product) :
    (sellLineStep sid iid inv db l p).products =
      updateProduct db.products l.product_id
        (fun q => { q with quantity := q.quantity - l.quantity }) := rfl

/-- Through a completed sale-item loop over a cart without duplicate
product lines, every product quantity stays non-negative: each deducted
quantity was checked against current stock beforehand. -/
theorem createSaleItems_nonneg (sid : Nat) (inv : String) :
    ∀ (items : List CartLine) (db : DB) (iid : Nat) (db2 : DB) (n : Nat),
      (items.map CartLine.product_id).Nodup →
      validateStock db items = none →
      (∀ p ∈ db.products, ∀ q ∈ db.products, p.id = q.id → p = q) →
      (∀ p ∈ db.products, 0 ≤ p.quantity) →
      createSaleItems sid inv db iid items = .done db2 n →
      ∀ p ∈ db2.products, 0 ≤ p.quantity := by
  intro items
  induction items with
  | nil =>
    intro db iid db2 n _ _ _ hq hloop
    cases hloop
    exact hq
  | cons l rest ih =>
    intro db iid db2 n hnd hv hwf hq hloop
    obtain ⟨p0, hp0, hq0⟩ := ((validateStock_none_iff db (l :: rest)).1 hv) l (by simp)
    have hp0mem := (find?_mem_pred hp0).1
    have hp0id : p0.id = l.product_id := by
      have := (find?_mem_pred hp0).2
      simpa using this
    have hvrest : ∀ l' ∈ rest, ∃ p', findProduct db l'.product_id = some p' ∧
        ¬(p'.quantity < l'.quantity) :=
      fun l' hl' => ((validateStock_none_iff db (l :: rest)).1 hv) l' (by simp [hl'])
    have hnd' : (∀ x ∈ rest, ¬x.product_id = l.product_id) ∧
        (rest.map CartLine.product_id).Nodup := by simpa using hnd
    simp only [createSaleItems, hp0] at hloop
    refine ih (sellLineStep sid iid inv db l p0) (iid + 1) db2 n
      (by simpa using hnd'.2)
      ?_ ?_ ?_ hloop
    · rw [validateStock_none_iff]
      intro l' hl'
      obtain ⟨p', hp', hq'⟩ := hvrest l' hl'
      have hne : l'.product_id ≠ l.product_id := hnd'.1 l' hl' 
      refine ⟨p', ?_, hq'⟩
      show (sellLineStep sid iid inv db l p0).products.find?
        (fun q => q.id == l'.product_id) = some p'
      rw [sellLineStep_products,
        findProduct_update db.products l.product_id
          (fun q => { q with quantity := q.quantity - l.quantity })
          (fun x => rfl) l'.product_id]
      have hfind : db.products.find? (fun q => q.id == l'.product_id) = some p' := hp'
      rw [hfind]
      have hp'id : p'.id = l'.product_id := by
        have := (find?_mem_pred hfind).2
        simpa using this
      simp [hp'id, hne]
    · rw [sellLineStep_products]
      intro x hx y hy hxy
      rcases List.mem_map.1 hx with ⟨a, ha, rfl⟩
      rcases List.mem_map.1 hy with ⟨b, hb, rfl⟩
      have hida : (if a.id == l.product_id then
          { a with quantity := a.quantity - l.quantity } else a).id = a.id := by
        by_cases h' : a.id == l.product_id <;> simp [h']
      have hidb : (if b.id == l.product_id then
          { b with quantity := b.quantity - l.quantity } else b).id = b.id := by
        by_cases h' : b.id == l.product_id <;> simp [h']
      rw [hida, hidb] at hxy
      rw [hwf a ha b hb hxy]
    · rw [sellLineStep_products]
      intro x hx
      rcases List.mem_map.1 hx with ⟨a, ha, rfl⟩
      by_cases h' : a.id == l.product_id
      · have haeq : a = p0 := hwf a ha p0 hp0mem (by simpa [hp0id] using h')
        rw [if_pos h', haeq]
        have : p0.quantity - l.quantity ≥ 0 := by
          have := not_lt.1 hq0
          omega
        simpa using this
      · rw [if_neg h']
        exact hq a ha

/-- The stock validation only reads the products table. -/
theorem validateStock_products_only (db db' : DB)
    (h : db.products = db'.products) :
    ∀ items, validateStock db items = validateStock db' items := by
  intro items
  induction items with
  | nil => rfl
  | cons l rest ih =>
    simp only [validateStock]
    rw [show findProduct db l.product_id = findProduct db' l.product_id from by
      unfold findProduct; rw [h]]
    cases findProduct db' l.product_id with
    | none => rfl
    | some p => by_cases hq : p.quantity < l.quantity <;> simp [hq, ih]

/-- The refund restock step never drives a quantity below zero: it only
ever adds a (non-negative) recorded sale-item quantity. -/
theorem restockStep_nonneg (db : DB) (rr : RefundRequest) (pk : Nat)
    (hq : ∀ p ∈ db.products, 0 ≤ p.quantity)
    (hitems : ∀ it ∈ db.saleItems, 0 ≤ it.quantity) :
    ∀ p ∈ (restockStep db rr pk).products, 0 ≤ p.quantity := by
  cases h1 : rr.sale_item_id with
  | none => simpa [restockStep, h1] using hq
  | some iid =>
    cases h2 : findItem db iid with
    | none => simpa [restockStep, h1, h2] using hq
    | some it =>
      cases h3 : it.product_id with
      | none => simpa [restockStep, h1, h2, h3] using hq
      | some pid =>
        cases h4 : findProduct db pid with
        | none => simpa [restockStep, h1, h2, h3, h4] using hq
        | some p0 =>
          intro x hx
          simp only [restockStep, h1, h2, h3, h4, updateProduct,
            List.mem_map] at hx
          rcases hx with ⟨a, ha, rfl⟩
          have hqt : 0 ≤ it.quantity := hitems it (find?_mem_pred h2).1
          have hqa := hq a ha
          by_cases h' : a.id == pid
          · rw [if_pos h']
            show 0 ≤ a.quantity + it.quantity
            omega
          · rw [if_neg h']
            exact hqa

/-! theorem of claim C2 (as amended) -/

/-- Claim C2 (amended): for every cart accepted by `process_sale` in which
each product appears in at most one line, and after every refund approval,
all product quantities stay non-negative; after validation passes, the
deduction loop always runs to completion (an error leaves the store
untouched), so there are no partial decrements. -/
theorem c2_quantity_never_negative
    (db : DB) (req : SaleRequest) (today suffix : String)
    (sid iid now pk : Nat) (isAdmin : Bool)
    (hnodup : (req.items.map CartLine.product_id).Nodup)
    (hwfP : ∀ p ∈ db.products, ∀ q ∈ db.products, p.id = q.id → p = q)
    (hq : ∀ p ∈ db.products, 0 ≤ p.quantity)
    (hitems : ∀ it ∈ db.saleItems, 0 ≤ it.quantity) :
    (∀ p ∈ (saleOutDB (process_sale db req today suffix sid iid now)).products,
      0 ≤ p.quantity) ∧
    (∀ p ∈ (resDB (approve_refund_request db pk isAdmin)).products,
      0 ≤ p.quantity) ∧
    ((∃ db2 s i, process_sale db req today suffix sid iid now = .ok db2 s i) ∨
      (∃ msg, process_sale db req today suffix sid iid now = .err db msg)) := by
  have hkey : ∀ P : Prop,
      ((∀ p ∈ (saleOutDB (process_sale db req today suffix sid iid now)).products,
        0 ≤ p.quantity) ∧
       ((∃ db2 s i, process_sale db req today suffix sid iid now = .ok db2 s i) ∨
        (∃ msg, process_sale db req today suffix sid iid now = .err db msg)) → P) → P := by
    intro P hP
    apply hP
    unfold process_sale
    by_cases hne : req.items.isEmpty
    · simp only [if_pos hne, saleOutDB]
      exact ⟨hq, Or.inr ⟨_, rfl⟩⟩
    · simp only [if_neg hne]
      cases hv : validateStock db req.items with
      | some msg =>
        simp only [saleOutDB]
        exact ⟨hq, Or.inr ⟨_, rfl⟩⟩
      | none =>
        by_cases hcol : db.sales.any
            (fun s => s.invoice_number == invoiceOf today suffix)
        · simp only [if_pos hcol, saleOutDB]
          exact ⟨hq, Or.inr ⟨_, rfl⟩⟩
        · simp only [if_neg hcol]
          have hv1 : validateStock
              { db with sales := db.sales ++ [newSaleRow req today suffix sid now] }
              req.items = none := by
            have hcongr := validateStock_products_only { db with sales := db.sales ++ [newSaleRow req today suffix sid now] } db rfl req.items
            rw [hcongr]
            exact hv
          obtain ⟨db2, n, hd⟩ := createSaleItems_done sid (invoiceOf today suffix)
            req.items
            { db with sales := db.sales ++ [newSaleRow req today suffix sid now] }
            iid
            (by
              intro l hl
              obtain ⟨p, hp, -⟩ := ((validateStock_none_iff _ req.items).1 hv1) l hl
              rw [hp]; rfl)
          rw [hd]
          have hnn := createSaleItems_nonneg sid (invoiceOf today suffix) req.items
            _ iid db2 n hnodup hv1 hwfP hq hd
          by_cases hpay : req.amount_paid > 0
          · simp only [if_pos hpay, saleOutDB]
            exact ⟨hnn, Or.inl ⟨_, _, _, rfl⟩⟩
          · simp only [if_neg hpay, saleOutDB]
            exact ⟨hnn, Or.inl ⟨_, _, _, rfl⟩⟩
  refine hkey _ (fun ⟨h1, h3⟩ => ⟨h1, ?_, h3⟩)
  intro x hx
  unfold approve_refund_request at hx
  split at hx
  · exact hq x (by simpa [resDB] using hx)
  split at hx
  · exact hq x (by simpa [resDB] using hx)
  split at hx
  · exact hq x (by simpa [resDB] using hx)
  split at hx
  · exact hq x (by simpa [resDB] using hx)
  split at hx
  · exact hq x (by simpa [resDB] using hx)
  split at hx
  · exact hq x (by simpa [resDB] using hx)
  simp only [resDB] at hx
  exact restockStep_nonneg _ _ _ (by exact hq) (by exact hitems) x hx

def wLineDup : CartLine :=
  { product_id := 1, quantity := 3, price := 10, discount := 0 }

def wReqDup : SaleRequest :=
  { items := [wLineDup, wLineDup], discount := none, amount_paid := 60,
    customer_name := "", customer_phone := "", payment_method := "cash",
    reference := "" }

/-- Counterexample to C2 as stated: a cart with two lines for the same
product (3 + 3 units against a stock of 3) is accepted — each line is
checked against the unmodified stock — and the deductions leave the
product's quantity at -3. -/
theorem c2_counterexample :
    isOkS (process_sale wDB wReqDup "20260101" "AAAAAA" 1 1 0) = true ∧
    (findProduct (saleOutDB (process_sale wDB wReqDup "20260101" "AAAAAA" 1 1 0))
      1).map Product.quantity = some (-3) := by
  constructor
  · rfl
  · rfl

def wReqOne : SaleRequest :=
  { items := [{ product_id := 1, quantity := 2, price := 10, discount := 0 }],
    discount := none, amount_paid := 20, customer_name := "",
    customer_phone := "", payment_method := "cash", reference := "" }

/-- Witness for C2 (amended): a single-line cart taking 2 of 3 units
leaves the quantity at 1 ≥ 0. -/
theorem c2_quantity_never_negative_witness :
    ((saleOutDB (process_sale wDB wReqOne "20260101" "AAAAAA" 1 1 0)).products.all
      (fun p => decide (0 ≤ p.quantity))) = true := by
  have h := (c2_quantity_never_negative wDB wReqOne "20260101" "AAAAAA" 1 1 0 4
    true (by decide) (by decide) (by decide) (by decide)).1
  exact List.all_eq_true.2 (fun p hp => decide_eq_true (h p hp))

/-! ### Claim C4 -/

/-- Every error response of `approve_refund_request` leaves the store
exactly as it was. -/
theorem approve_err_db (db : DB) (pk : Nat) (a : Bool) (db' : DB) (m : String)
    (h : approve_refund_request db pk a = .err db' m) : db' = db := by
  unfold approve_refund_request at h
  split at h
  · cases h; rfl
  split at h
  · cases h; rfl
  split at h
  · cases h; rfl
  split at h
  · cases h; rfl
  split at h
  · cases h; rfl
  split at h
  · cases h; rfl
  cases h

theorem newSaleRow_id (req : SaleRequest) (today suffix : String)
    (sid now : Nat) : (newSaleRow req today suffix sid now).id = sid := rfl

theorem newSaleRow_amount_paid (req : SaleRequest) (today suffix : String)
    (sid now : Nat) :
    (newSaleRow req today suffix sid now).amount_paid = req.amount_paid := rfl

/-- Claim C4 (amended): every sale's `amount_paid` equals the sum of its
`Payment` rows (refunds as negatives) after sale creation with a
non-negative `amount_paid`, after `record_payment`, and after refund
approval — provided the invariant held before and the new sale id is
fresh. -/
theorem c4_amount_paid_equals_payment_sum
    (db : DB) (req : SaleRequest) (today suffix : String)
    (sid iid now sale_pk : Nat) (amt : ℚ) (method reference : String)
    (pk : Nat) (isAdmin : Bool)
    (hdb : payInv db)
    (hpos : 0 ≤ req.amount_paid)
    (hfreshS : ∀ s ∈ db.sales, s.id ≠ sid)
    (hfreshP : ∀ p ∈ db.payments, p.sale_id ≠ sid) :
    payInv (saleOutDB (process_sale db req today suffix sid iid now)) ∧
    payInv (resDB (record_payment db sale_pk amt method reference)) ∧
    payInv (resDB (approve_refund_request db pk isAdmin)) := by
  refine ⟨?_, ?_, ?_⟩
  · unfold process_sale
    by_cases hne : req.items.isEmpty
    · simp only [if_pos hne, saleOutDB]; exact hdb
    · simp only [if_neg hne]
      cases hv : validateStock db req.items with
      | some msg => simp only [saleOutDB]; exact hdb
      | none =>
        by_cases hcol : db.sales.any
            (fun s => s.invoice_number == invoiceOf today suffix)
        · simp only [if_pos hcol, saleOutDB]; exact hdb
        · simp only [if_neg hcol]
          have hv1 : validateStock
              { db with sales := db.sales ++ [newSaleRow req today suffix sid now] }
              req.items = none := by
            have hcongr := validateStock_products_only { db with sales := db.sales ++ [newSaleRow req today suffix sid now] } db rfl req.items
            rw [hcongr]
            exact hv
          obtain ⟨db2, n, hd⟩ := createSaleItems_done sid (invoiceOf today suffix)
            req.items
            { db with sales := db.sales ++ [newSaleRow req today suffix sid now] }
            iid
            (by
              intro l hl
              obtain ⟨p, hp, -⟩ := ((validateStock_none_iff _ req.items).1 hv1) l hl
              rw [hp]; rfl)
          rw [hd]
          have hfr := createSaleItems_frame sid (invoiceOf today suffix) req.items
            { db with sales := db.sales ++ [newSaleRow req today suffix sid now] } iid
          rw [hd] at hfr
          simp only [loopDB] at hfr
          have hsales : db2.sales = db.sales ++ [newSaleRow req today suffix sid now] :=
            hfr.1
          have hpays : db2.payments = db.payments := hfr.2.1
          have hmem : ∀ s ∈ db2.sales,
              s ∈ db.sales ∨ s = newSaleRow req today suffix sid now := by
            intro s hs
            rw [hsales] at hs
            rcases List.mem_append.1 hs with hs | hs
            · exact Or.inl hs
            · exact Or.inr (List.mem_singleton.1 hs)
          by_cases hpay : req.amount_paid > 0
          · simp only [if_pos hpay, saleOutDB]
            intro s hs
            have hs' := hmem s (by simpa using hs)
            show s.amount_paid = sumFor (db2.payments ++ [initialPayment req sid]) s.id
            rw [sumFor_append, hpays, sumFor_single]
            rcases hs' with hs' | hs'
            · have hne' : (initialPayment req sid).sale_id ≠ s.id := by
                simp only [initialPayment]
                exact fun hcon => (hfreshS s hs') hcon.symm
              rw [if_neg (by simpa using hne')]
              rw [add_zero]
              exact hdb s hs'
            · subst hs'
              rw [newSaleRow_amount_paid, newSaleRow_id,
                sumFor_zero db.payments sid hfreshP]
              simp [initialPayment]
          · simp only [if_neg hpay, saleOutDB]
            intro s hs
            have hs' := hmem s hs
            show s.amount_paid = sumFor db2.payments s.id
            rw [hpays]
            rcases hs' with hs' | hs'
            · exact hdb s hs'
            · subst hs'
              rw [newSaleRow_amount_paid, newSaleRow_id,
                sumFor_zero db.payments sid hfreshP]
              linarith
  · unfold record_payment
    cases hfs : findSale db sale_pk with
    | none => simp only [resDB]; exact hdb
    | some sale =>
      have hsid : sale.id = sale_pk := by
        have := (find?_mem_pred hfs).2
        simpa using this
      have hsmem : sale ∈ db.sales := (find?_mem_pred hfs).1
      by_cases h1 : amt ≤ 0
      · simp only [if_pos h1, resDB]; exact hdb
      · simp only [if_neg h1]
        by_cases h2 : sale.balance < amt
        · simp only [if_pos h2, resDB]; exact hdb
        · simp only [if_neg h2, resDB]
          intro s hs
          simp only [updateSale, List.mem_map] at hs
          rcases hs with ⟨s0, hs0, rfl⟩
          by_cases hid : s0.id == sale_pk
          · rw [if_pos hid]
            rw [saveSale_amount_paid, saveSale_id]
            show sale.amount_paid + amt =
              sumFor (db.payments ++
                [{ sale_id := sale_pk, amount := amt, payment_method := method,
                   reference := reference }]) sale.id
            rw [sumFor_append, sumFor_single]
            rw [if_pos (by simp [hsid])]
            have := hdb sale hsmem
            rw [this]
            show sumFor db.payments sale.id + amt =
              sumFor db.payments sale.id + amt
            rfl
          · rw [if_neg hid]
            have hid' : ¬ s0.id = sale_pk := by simpa using hid
            show s0.amount_paid = sumFor (db.payments ++
              [{ sale_id := sale_pk, amount := amt, payment_method := method,
                 reference := reference }]) s0.id
            rw [sumFor_append, sumFor_single,
              if_neg (by simp only [beq_iff_eq]; exact fun h => hid' h.symm),
              add_zero]
            exact hdb s0 hs0
  · cases hres : approve_refund_request db pk isAdmin with
    | err db' m =>
      have := approve_err_db db pk isAdmin db' m hres
      subst this
      simp only [resDB]
      exact hdb
    | ok db1 =>
      simp only [resDB]
      unfold approve_refund_request at hres
      split at hres
      · cases hres
      split at hres
      · cases hres
      split at hres
      · cases hres
      split at hres
      · cases hres
      split at hres
      · cases hres
      split at hres
      · cases hres
      rename_i hadm orr rr hfind hst hpr osale sale hsale hamt
      cases hres
      intro s hs
      rw [(restockStep_frame _ _ _).1] at hs
      simp only [updateSale, List.mem_map] at hs
      rcases hs with ⟨s0, hs0, rfl⟩
      have hsalemem : sale ∈ db.sales := resolveSale_mem db rr sale hsale
      by_cases hid : s0.id == sale.id
      · rw [if_pos hid]
        dsimp only [saveSale_amount_paid, saveSale_id]
        simp only [paySum]
        rw [(restockStep_frame _ _ _).2.1]
        dsimp only
        rw [sumFor_append, sumFor_single]
        dsimp only
        rw [if_pos (by simp)]
        have hps := hdb sale hsalemem
        rw [paySum] at hps
        rw [hps]
        ring
      · rw [if_neg hid]
        have hid' : ¬ s0.id = sale.id := by simpa using hid
        simp only [paySum]
        rw [(restockStep_frame _ _ _).2.1]
        dsimp only
        rw [sumFor_append, sumFor_single]
        dsimp only
        rw [if_neg (by simp only [beq_iff_eq]; exact fun h => hid' h.symm), add_zero]
        exact hdb s0 hs0

def wReqNeg : SaleRequest :=
  { items := [{ product_id := 1, quantity := 1, price := 10, discount := 0 }],
    discount := none, amount_paid := -5, customer_name := "",
    customer_phone := "", payment_method := "cash", reference := "" }

/-- Counterexample to C4 as stated: `process_sale` accepts a request with
`amount_paid = -5` (no validation rejects it), persists a sale whose
`amount_paid` is -5, and writes no `Payment` row (one is only written when
`amount_paid > 0`), so the sale's payment sum is 0 ≠ -5. -/
theorem c4_counterexample :
    isOkS (process_sale wDB wReqNeg "20260101" "AAAAAA" 1 1 0) = true ∧
    (findSale (saleOutDB (process_sale wDB wReqNeg "20260101" "AAAAAA" 1 1 0))
      1).map Sale.amount_paid = some (-5) ∧
    paySum (saleOutDB (process_sale wDB wReqNeg "20260101" "AAAAAA" 1 1 0)) 1 = 0 ∧
    ((-5 : ℚ) ≠ 0) := by
  refine ⟨rfl, by decide, by decide, by norm_num⟩

/-- Witness for C4 (amended): a fully-paid one-line sale (20 paid on a
20 total) keeps every sale's `amount_paid` equal to its payment sum. -/
theorem c4_amount_paid_equals_payment_sum_witness :
    ((saleOutDB (process_sale wDB3 wReqOne "20260101" "AAAAAA" 1 1 0)).sales.all
      (fun s => decide (s.amount_paid =
        paySum (saleOutDB (process_sale wDB3 wReqOne "20260101" "AAAAAA" 1 1 0))
          s.id))) = true := by
  have hpinv : payInv wDB3 := by
    intro s hs
    simp only [wDB3, List.mem_singleton] at hs
    subst hs
    simp [paySum, sumFor, wPay200, wSale7, wDB3]
  have h := (c4_amount_paid_equals_payment_sum wDB3 wReqOne "20260101" "AAAAAA"
    1 1 0 7 300 "cash" "" 4 true hpinv (by decide) (by decide)
    (by decide)).1
  exact List.all_eq_true.2 (fun s hs => decide_eq_true (h s hs))

/-! ### Claim C5 -/

theorem saveRefund_rid (r : Refund) :
    (saveRefund r).refund_request_id = r.refund_request_id := rfl

/-- A non-admin caller is rejected before any check or write. -/
theorem approve_not_admin (db : DB) (pk : Nat) :
    approve_refund_request db pk false =
      .err db "Only admins can approve refunds" := by
  simp [approve_refund_request]

/-- A request that is no longer pending is rejected with the
already-processed error and no writes. -/
theorem approve_not_pending (db : DB) (pk : Nat) (rr : RefundRequest)
    (hfind : findRR db pk = some rr) (hst : rr.status ≠ RStatus.pending) :
    approve_refund_request db pk true =
      .err db "This refund request has already been processed" := by
  simp only [approve_refund_request, hfind]
  rw [if_neg (by simp), if_pos hst]

theorem decline_not_admin (db : DB) (pk : Nat) :
    decline_refund_request db pk false =
      .err db "Only admins can decline refunds" := by
  simp [decline_refund_request]

theorem decline_not_pending (db : DB) (pk : Nat) (rr : RefundRequest)
    (hfind : findRR db pk = some rr) (hst : rr.status ≠ RStatus.pending) :
    decline_refund_request db pk true =
      .err db "This refund request has already been processed" := by
  simp only [decline_refund_request, hfind]
  rw [if_neg (by simp), if_pos hst]

/-- Looked-up-by-pk requests commute with an update that keeps the pk. -/
theorem findRR_updateRR_self (rs : List RefundRequest) (pk : Nat)
    (f : RefundRequest → RefundRequest)
    (hf : ∀ x, x.id = pk → (f x).id = pk) :
    (updateRR rs pk f).find? (fun r => r.id == pk) =
      (rs.find? (fun r => r.id == pk)).map
        (fun r => if r.id == pk then f r else r) := by
  apply find?_map_of_pred
  intro x
  by_cases hx : x.id == pk
  · have := hf x (by simpa using hx)
    simp [if_pos hx, this, hx]
  · simp [if_neg hx, hx]

set_option maxHeartbeats 1000000 in
/-- Claim C5: an admin approving a pending, unprocessed refund request
succeeds, creating exactly one Refund row and marking the request
approved+processed; any second approve (and any decline) fails with the
already-processed error and changes nothing, and approved/declined are
terminal for every later approve or decline call. -/
theorem c5_approve_is_idempotent
    (db : DB) (pk : Nat) (rr : RefundRequest) (sale : Sale)
    (hfind : findRR db pk = some rr)
    (hpend : rr.status = RStatus.pending)
    (hproc : rr.refund_processed = false)
    (hres : resolveSale db rr = some sale)
    (hamt : ¬ sale.amount_paid < rr.amount)
    (hnone : refundsFor db pk = []) :
    (∃ db1, approve_refund_request db pk true = .ok db1 ∧
      (refundsFor db1 pk).length = 1 ∧
      (∃ rr1, findRR db1 pk = some rr1 ∧ rr1.status = RStatus.approved ∧
        rr1.refund_processed = true) ∧
      approve_refund_request db1 pk true =
        .err db1 "This refund request has already been processed" ∧
      (∀ b : Bool, ∃ m, approve_refund_request db1 pk b = .err db1 m) ∧
      (∀ b : Bool, ∃ m, decline_refund_request db1 pk b = .err db1 m)) ∧
    (∀ dbX rrX, findRR dbX pk = some rrX → rrX.status ≠ RStatus.pending →
      approve_refund_request dbX pk true =
        .err dbX "This refund request has already been processed" ∧
      decline_refund_request dbX pk true =
        .err dbX "This refund request has already been processed") := by
  have hrrid : rr.id = pk := by
    simpa using (find?_mem_pred hfind).2
  refine ⟨?_, fun dbX rrX hX hsX =>
    ⟨approve_not_pending dbX pk rrX hX hsX,
     decline_not_pending dbX pk rrX hX hsX⟩⟩
  cases hcase : approve_refund_request db pk true with
  | err d m =>
    exfalso
    unfold approve_refund_request at hcase
    split at hcase
    · simp_all
    split at hcase
    · simp_all
    split at hcase
    · simp_all
    split at hcase
    · simp_all
    split at hcase
    · simp_all
    split at hcase
    · simp_all
      linarith
    cases hcase
  | ok db1 =>
    have happ := hcase
    unfold approve_refund_request at hcase
    split at hcase
    · cases hcase
    split at hcase
    · cases hcase
    split at hcase
    · cases hcase
    split at hcase
    · cases hcase
    split at hcase
    · cases hcase
    split at hcase
    · cases hcase
    rename_i hadm orr rr' hfindX hst hpr osale sale' hresX hamtX
    rw [hfind] at hfindX
    injection hfindX with hrr'
    subst hrr'
    rw [hres] at hresX
    injection hresX with hsale'
    subst hsale'
    injection hcase with hdb1
    have hfindL : db.refundRequests.find? (fun r => r.id == pk) = some rr := by
      simpa [findRR] using hfind
    have hfind2 : findRR db1 pk = some { rr with sale_id := some sale.id, status := RStatus.approved, refund_processed := true } := by
      rw [← hdb1]
      simp only [findRR]
      rw [(restockStep_frame _ _ _).2.2.1]
      show (updateRR (updateRR db.refundRequests pk _) pk _).find?
        (fun r => r.id == pk) = _
      rw [findRR_updateRR_self _ pk (fun _ => { rr with sale_id := some sale.id, status := RStatus.approved, refund_processed := true }) (fun x _ => hrrid)]
      rw [findRR_updateRR_self _ pk (fun _ => { rr with sale_id := some sale.id }) (fun x _ => hrrid), hfindL]
      simp [hrrid]
    refine ⟨db1, rfl, ?_, ⟨_, hfind2, rfl, rfl⟩,
      approve_not_pending _ _ _ hfind2 (by simp), ?_, ?_⟩
    · rw [← hdb1]
      simp only [refundsFor]
      rw [(restockStep_frame _ _ _).2.2.2.1]
      show (List.filter (fun r => r.refund_request_id == pk)
        (db.refunds ++ [saveRefund { sale_id := some sale.id, refund_request_id := pk, amount := rr.amount }])).length = 1
      rw [List.filter_append]
      have hnone' : db.refunds.filter
          (fun r => r.refund_request_id == pk) = [] := by
        simpa [refundsFor] using hnone
      rw [hnone']
      simp [saveRefund]
    · intro b
      cases b
      · exact ⟨_, approve_not_admin db1 pk⟩
      · exact ⟨_, approve_not_pending _ _ _ hfind2 (by simp)⟩
    · intro b
      cases b
      · exact ⟨_, decline_not_admin db1 pk⟩
      · exact ⟨_, decline_not_pending _ _ _ hfind2 (by simp)⟩

def wSaleR : Sale :=
  { id := 7, invoice_number := "INV-X", customer_name := "A",
    customer_phone := "1", subtotal := 1000, discount := 0, total := 1000,
    amount_paid := 1000, balance := 0, payment_status := .paid,
    created_at := 5 }

def wPayR : Payment :=
  { sale_id := 7, amount := 1000, payment_method := "cash", reference := "" }

def wRRr : RefundRequest :=
  { id := 4, sale_id := some 7, sale_item_id := none, customer_name := "A",
    customer_phone := "1", amount := 300, status := .pending,
    refund_processed := false, reason := "damaged" }

def wDBr : DB :=
  { products := [wProduct], sales := [wSaleR], saleItems := [],
    payments := [wPayR], stockMovements := [], refundRequests := [wRRr],
    refunds := [] }

/-- Witness for C5: approving pending request 4 on a fully-paid sale
succeeds with exactly one Refund row, and the second approve fails with
the already-processed error, leaving the store unchanged. -/
theorem c5_approve_is_idempotent_witness :
    isOkR (approve_refund_request wDBr 4 true) = true ∧
    (refundsFor (resDB (approve_refund_request wDBr 4 true)) 4).length = 1 ∧
    approve_refund_request (resDB (approve_refund_request wDBr 4 true)) 4 true =
      .err (resDB (approve_refund_request wDBr 4 true))
        "This refund request has already been processed" := by
  obtain ⟨⟨db1, happ, hlen, -, hsecond, -, -⟩, -⟩ :=
    c5_approve_is_idempotent wDBr 4 wRRr wSaleR (by decide) (by decide)
      (by decide) (by decide) (by decide) (by decide)
  rw [happ]
  exact ⟨rfl, hlen, hsecond⟩

/-! ### Claim C7 -/

/-- The restock step on an item-scoped request whose item still references
an existing product: add the item's quantity and append one `in` movement. -/
theorem restockStep_item (db : DB) (rr : RefundRequest) (pk iid : Nat)
    (it : SaleItem) (pid : Nat) (p : Product)
    (hiid : rr.sale_item_id = some iid)
    (hit : findItem db iid = some it)
    (hpid : it.product_id = some pid)
    (hfp : findProduct db pid = some p) :
    (restockStep db rr pk).products =
      updateProduct db.products pid
        (fun q => { q with quantity := q.quantity + it.quantity }) ∧
    (restockStep db rr pk).stockMovements =
      db.stockMovements ++
        [{ product_id := pid, movement_type := "in", quantity := it.quantity,
           reference := "REFUND-" ++ toString pk }] := by
  simp [restockStep, hiid, hit, hpid, hfp]

/-- The restock step on a sale-scoped (non-item) request is a no-op. -/
theorem restockStep_none (db : DB) (rr : RefundRequest) (pk : Nat)
    (hiid : rr.sale_item_id = none) :
    restockStep db rr pk = db := by
  unfold restockStep
  rw [hiid]

set_option maxHeartbeats 1000000 in
/-- Claim C7: approving an item-scoped refund request whose SaleItem (for
quantity Q) still references an existing product increases that product's
quantity by exactly Q and appends exactly one StockMovement of type `in`
with quantity Q referencing the refund; approving a sale-scoped request
changes no product quantity and writes no StockMovement. -/
theorem c7_item_refund_restocks_exactly_q
    (db : DB) (pk : Nat) (rr : RefundRequest) (sale : Sale)
    (hfind : findRR db pk = some rr)
    (hpend : rr.status = RStatus.pending)
    (hproc : rr.refund_processed = false)
    (hres : resolveSale db rr = some sale)
    (hamt : ¬ sale.amount_paid < rr.amount) :
    (∀ iid it pid p, rr.sale_item_id = some iid →
      findItem db iid = some it →
      it.product_id = some pid →
      findProduct db pid = some p →
      ∃ db1, approve_refund_request db pk true = .ok db1 ∧
        findProduct db1 pid =
          some { p with quantity := p.quantity + it.quantity } ∧
        db1.stockMovements = db.stockMovements ++
          [{ product_id := pid, movement_type := "in",
             quantity := it.quantity,
             reference := "REFUND-" ++ toString pk }]) ∧
    (rr.sale_item_id = none →
      ∃ db1, approve_refund_request db pk true = .ok db1 ∧
        db1.products = db.products ∧
        db1.stockMovements = db.stockMovements) := by
  cases hcase : approve_refund_request db pk true with
  | err d m =>
    exfalso
    unfold approve_refund_request at hcase
    split at hcase
    · simp_all
    split at hcase
    · simp_all
    split at hcase
    · simp_all
    split at hcase
    · simp_all
    split at hcase
    · simp_all
    split at hcase
    · simp_all
      linarith
    cases hcase
  | ok db1 =>
    unfold approve_refund_request at hcase
    split at hcase
    · cases hcase
    split at hcase
    · cases hcase
    split at hcase
    · cases hcase
    split at hcase
    · cases hcase
    split at hcase
    · cases hcase
    split at hcase
    · cases hcase
    rename_i hadm orr rr' hfindX hst hpr osale sale' hresX hamtX
    rw [hfind] at hfindX
    injection hfindX with hrr'
    subst hrr'
    rw [hres] at hresX
    injection hresX with hsale'
    subst hsale'
    injection hcase with hdb1
    constructor
    · intro iid it pid p hiid hit hpid hfp
      have hpid' : p.id = pid := by
        simpa using (find?_mem_pred (by simpa [findProduct] using hfp :
          db.products.find? (fun x => x.id == pid) = some p)).2
      refine ⟨db1, rfl, ?_, ?_⟩
      · rw [← hdb1]
        show findProduct (restockStep _ rr pk) pid = _
        unfold findProduct
        rw [(restockStep_item _ rr pk iid it pid p hiid (by exact hit) hpid
          (by exact hfp)).1]
        rw [findProduct_update _ pid
          (fun q => { q with quantity := q.quantity + it.quantity })
          (fun x => rfl) pid]
        have hfp' : db.products.find? (fun x => x.id == pid) = some p := by
          simpa [findProduct] using hfp
        rw [hfp']
        simp [hpid']
      · rw [← hdb1]
        show (restockStep _ rr pk).stockMovements = _
        rw [(restockStep_item _ rr pk iid it pid p hiid (by exact hit) hpid
          (by exact hfp)).2]
    · intro hnone'
      refine ⟨db1, rfl, ?_, ?_⟩
      · rw [← hdb1]
        show (restockStep _ rr pk).products = _
        rw [restockStep_none _ rr pk hnone']
      · rw [← hdb1]
        show (restockStep _ rr pk).stockMovements = _
        rw [restockStep_none _ rr pk hnone']

def wItemR : SaleItem :=
  { id := 9, sale_id := 7, product_id := some 1, product_name := "Widget",
    quantity := 2, price := 500, discount := 0, total := 1000 }

def wRR7 : RefundRequest :=
  { id := 4, sale_id := some 7, sale_item_id := some 9, customer_name := "A",
    customer_phone := "1", amount := 300, status := .pending,
    refund_processed := false, reason := "damaged" }

def wDBr7 : DB :=
  { products := [wProduct], sales := [wSaleR], saleItems := [wItemR],
    payments := [wPayR], stockMovements := [], refundRequests := [wRR7],
    refunds := [] }

/-- Witness for C7: approving an item-scoped refund for an item of
quantity 2 raises the product from 3 to 5 units and records exactly one
`in` StockMovement of quantity 2 referencing REFUND-4. -/
theorem c7_item_refund_restocks_exactly_q_witness :
    isOkR (approve_refund_request wDBr7 4 true) = true ∧
    (findProduct (resDB (approve_refund_request wDBr7 4 true)) 1).map
      Product.quantity = some 5 ∧
    (resDB (approve_refund_request wDBr7 4 true)).stockMovements =
      [{ product_id := 1, movement_type := "in", quantity := 2,
         reference := "REFUND-4" }] := by
  obtain ⟨hA, -⟩ := c7_item_refund_restocks_exactly_q wDBr7 4 wRR7 wSaleR
    (by decide) (by decide) (by decide) (by decide) (by decide)
  obtain ⟨db1, happ, hq, hmv⟩ := hA 9 wItemR 1 wProduct rfl (by decide) rfl
    (by decide)
  rw [happ]
  refine ⟨rfl, ?_, ?_⟩
  · rw [show resDB (Res.ok db1) = db1 from rfl, hq]
    rfl
  · rw [show resDB (Res.ok db1) = db1 from rfl, hmv]
    rfl

/-! ### Claims C6 and C8-C10: the shape of a successful sale creation -/

/-- When the cart is non-empty, every line passes the stock check and the
generated invoice number is fresh, `process_sale` succeeds: it appends
exactly the one new sale row, and appends the initial payment row exactly
when `amount_paid > 0`. -/
theorem process_sale_ok_shape
    (db : DB) (req : SaleRequest) (today suffix : String) (sid iid now : Nat)
    (hne : req.items ≠ [])
    (hv : validateStock db req.items = none)
    (hcol : ∀ s ∈ db.sales, s.invoice_number ≠ invoiceOf today suffix) :
    ∃ db3, process_sale db req today suffix sid iid now =
        .ok db3 sid (invoiceOf today suffix) ∧
      db3.sales = db.sales ++ [newSaleRow req today suffix sid now] ∧
      db3.payments = (if req.amount_paid > 0
        then db.payments ++ [initialPayment req sid] else db.payments) := by
  have hne' : req.items.isEmpty = false := by
    cases hi : req.items with
    | nil => exact absurd hi hne
    | cons a t => simp [hi]
  have hcol' : db.sales.any
      (fun s => s.invoice_number == invoiceOf today suffix) = false := by
    rw [List.any_eq_false]
    intro s hs
    simpa using hcol s hs
  unfold process_sale
  simp only [hne', hv, hcol', Bool.false_eq_true, if_false]
  have hv1 : validateStock
      { db with sales := db.sales ++ [newSaleRow req today suffix sid now] }
      req.items = none := by
    have hcongr := validateStock_products_only { db with sales := db.sales ++ [newSaleRow req today suffix sid now] } db rfl req.items
    rw [hcongr]
    exact hv
  obtain ⟨db2, n, hd⟩ := createSaleItems_done sid (invoiceOf today suffix)
    req.items
    { db with sales := db.sales ++ [newSaleRow req today suffix sid now] }
    iid
    (by
      intro l hl
      obtain ⟨p, hp, -⟩ := ((validateStock_none_iff _ req.items).1 hv1) l hl
      rw [hp]; rfl)
  simp only [hd]
  have hfr := createSaleItems_frame sid (invoiceOf today suffix) req.items
    { db with sales := db.sales ++ [newSaleRow req today suffix sid now] } iid
  rw [hd] at hfr
  simp only [loopDB] at hfr
  by_cases hpay : req.amount_paid > 0
  · rw [if_pos hpay]
    exact ⟨_, rfl, hfr.1, by rw [if_pos hpay]; exact congrArg (· ++ _) hfr.2.1⟩
  · rw [if_neg hpay]
    exact ⟨_, rfl, hfr.1, by rw [if_neg hpay]; exact hfr.2.1⟩

theorem newSaleRow_customer_name (req : SaleRequest) (today suffix : String)
    (sid now : Nat) :
    (newSaleRow req today suffix sid now).customer_name =
      req.customer_name := rfl

theorem newSaleRow_customer_phone (req : SaleRequest) (today suffix : String)
    (sid now : Nat) :
    (newSaleRow req today suffix sid now).customer_phone =
      req.customer_phone := rfl

theorem newSaleRow_total (req : SaleRequest) (today suffix : String)
    (sid now : Nat) : (newSaleRow req today suffix sid now).total =
      totalOf req := rfl

theorem newSaleRow_subtotal (req : SaleRequest) (today suffix : String)
    (sid now : Nat) : (newSaleRow req today suffix sid now).subtotal =
      subtotalOf req.items := rfl

theorem newSaleRow_balance (req : SaleRequest) (today suffix : String)
    (sid now : Nat) :
    (newSaleRow req today suffix sid now).balance =
      if totalOf req - req.amount_paid < 0 then 0
      else totalOf req - req.amount_paid := rfl

/-- The persisted status of a freshly created sale, by the balance cases
of `Sale.save`. -/
theorem newSaleRow_status (req : SaleRequest) (today suffix : String)
    (sid now : Nat) :
    (newSaleRow req today suffix sid now).payment_status =
      (if totalOf req - req.amount_paid ≤ 0 then PayStatus.paid
       else if totalOf req - req.amount_paid < totalOf req then
         PayStatus.part_paid
       else PayStatus.unpaid) := by
  show (saveSale _).payment_status = _
  unfold saveSale
  dsimp only
  by_cases h0 : totalOf req - req.amount_paid < 0
  · rw [if_pos h0, if_pos (le_refl (0 : ℚ)), if_pos (le_of_lt h0)]
  · rw [if_neg h0]

/-! theorem of claim C6 (as amended) -/

/-- Claim C6 (amended): `process_sale` performs no customer-information
check at all: a request with `amount_paid < total` and empty customer
name and phone passes validation, and when the cart is valid the sale is
created with the empty customer fields, a positive outstanding balance,
and status `partial` or `unpaid`; no error is returned. -/
theorem c6_no_customer_check
    (db : DB) (req : SaleRequest) (today suffix : String) (sid iid now : Nat)
    (hne : req.items ≠ [])
    (hv : validateStock db req.items = none)
    (hcol : ∀ s ∈ db.sales, s.invoice_number ≠ invoiceOf today suffix)
    (hlt : req.amount_paid < totalOf req)
    (hname : req.customer_name = "")
    (hphone : req.customer_phone = "") :
    ∃ db3, process_sale db req today suffix sid iid now =
        .ok db3 sid (invoiceOf today suffix) ∧
      db3.sales = db.sales ++ [newSaleRow req today suffix sid now] ∧
      (newSaleRow req today suffix sid now).customer_name = "" ∧
      (newSaleRow req today suffix sid now).customer_phone = "" ∧
      0 < (newSaleRow req today suffix sid now).balance ∧
      ((newSaleRow req today suffix sid now).payment_status =
          PayStatus.part_paid ∨
        (newSaleRow req today suffix sid now).payment_status =
          PayStatus.unpaid) := by
  obtain ⟨db3, hok, hsales, -⟩ :=
    process_sale_ok_shape db req today suffix sid iid now hne hv hcol
  have hd : 0 < totalOf req - req.amount_paid := by linarith
  refine ⟨db3, hok, hsales, by rw [newSaleRow_customer_name, hname],
    by rw [newSaleRow_customer_phone, hphone], ?_, ?_⟩
  · rw [newSaleRow_balance, if_neg (by linarith)]
    exact hd
  · rw [newSaleRow_status, if_neg (by linarith)]
    by_cases hb : totalOf req - req.amount_paid < totalOf req
    · rw [if_pos hb]
      exact Or.inl rfl
    · rw [if_neg hb]
      exact Or.inr rfl

def wReqB : SaleRequest :=
  { items := [{ product_id := 1, quantity := 2, price := 1000, discount := 0 }],
    discount := none, amount_paid := 500, customer_name := "",
    customer_phone := "", payment_method := "cash", reference := "" }

/-- Counterexample to C6 as stated: Scenario B's request (amount_paid 500
on a 2000 total, customer omitted) is NOT rejected: the sale is created
and persisted with empty customer fields. -/
theorem c6_counterexample :
    isOkS (process_sale wDB wReqB "20260101" "AAAAAA" 1 1 0) = true ∧
    (saleOutDB (process_sale wDB wReqB "20260101" "AAAAAA" 1 1 0)).sales.length
      = 1 ∧
    (findSale (saleOutDB (process_sale wDB wReqB "20260101" "AAAAAA" 1 1 0))
      1).map Sale.customer_name = some "" := by
  exact ⟨rfl, rfl, by decide⟩

/-- Witness for C6 (amended): Scenario B's request goes through and the
created sale keeps the empty customer name with a positive balance. -/
theorem c6_no_customer_check_witness :
    isOkS (process_sale wDB wReqB "20260101" "AAAAAA" 1 1 0) = true ∧
    (saleOutDB (process_sale wDB wReqB "20260101" "AAAAAA" 1 1 0)).sales =
      wDB.sales ++ [newSaleRow wReqB "20260101" "AAAAAA" 1 0] ∧
    (newSaleRow wReqB "20260101" "AAAAAA" 1 0).customer_name = "" ∧
    0 < (newSaleRow wReqB "20260101" "AAAAAA" 1 0).balance := by
  obtain ⟨db3, hok, hsales, hname, hphone, hbal, hst⟩ :=
    c6_no_customer_check wDB wReqB "20260101" "AAAAAA" 1 1 0
      (by decide) (by decide) (by decide)
      (by norm_num [totalOf, subtotalOf, saleDiscountOf, itemDiscountsOf, wReqB])
      rfl rfl
  rw [hok]
  exact ⟨rfl, hsales, hname, hbal⟩

/-! ### Claim C8 -/

def wReqA : SaleRequest :=
  { items := [{ product_id := 1, quantity := 2, price := 1000, discount := 0 }],
    discount := none, amount_paid := 2000, customer_name := "",
    customer_phone := "", payment_method := "cash", reference := "" }

/-- Counterexample to C8 as stated: Scenario A's sale is created, but its
persisted `customer_name` is the empty string, not "Walk-in Customer"
(`data.get('customer_name', '')` is stored unchanged; no default is
applied at creation). -/
theorem c8_counterexample :
    isOkS (process_sale wDB wReqA "20260101" "AAAAAA" 1 1 0) = true ∧
    (findSale (saleOutDB (process_sale wDB wReqA "20260101" "AAAAAA" 1 1 0))
      1).map Sale.customer_name ≠ some "Walk-in Customer" := by
  exact ⟨rfl, by decide⟩

/-- Claim C8 (amended): with Scenario A's cart (one line, price 1000,
qty 2, discount 0) and amount_paid 2000, the Sale is created with
subtotal=2000, total=2000, balance=0, status=paid — and customer_name
stored as the empty string (not "Walk-in Customer"). -/
theorem c8_scenario_a_fields :
    ∃ db3, process_sale wDB wReqA "20260101" "AAAAAA" 1 1 0 =
        .ok db3 1 (invoiceOf "20260101" "AAAAAA") ∧
      db3.sales = [newSaleRow wReqA "20260101" "AAAAAA" 1 0] ∧
      (newSaleRow wReqA "20260101" "AAAAAA" 1 0).subtotal = 2000 ∧
      (newSaleRow wReqA "20260101" "AAAAAA" 1 0).total = 2000 ∧
      (newSaleRow wReqA "20260101" "AAAAAA" 1 0).balance = 0 ∧
      (newSaleRow wReqA "20260101" "AAAAAA" 1 0).payment_status =
        PayStatus.paid ∧
      (newSaleRow wReqA "20260101" "AAAAAA" 1 0).customer_name = "" := by
  obtain ⟨db3, hok, hsales, -⟩ := process_sale_ok_shape wDB wReqA
    "20260101" "AAAAAA" 1 1 0 (by decide) (by decide) (by decide)
  have htot : totalOf wReqA = 2000 := by
    norm_num [totalOf, subtotalOf, saleDiscountOf, itemDiscountsOf, wReqA]
  refine ⟨db3, hok, by simpa using hsales, ?_, ?_, ?_, ?_, rfl⟩
  · rw [newSaleRow_subtotal]
    norm_num [subtotalOf, wReqA]
  · rw [newSaleRow_total, htot]
  · rw [newSaleRow_balance, htot]
    norm_num [wReqA]
  · rw [newSaleRow_status, htot]
    norm_num [wReqA]

/-! ### Claim C9 -/

/-- Claim C9 (amended): the invoice number is generated in a single draw
as prefix+date+random-suffix with no collision check or retry: when the
draw collides with an existing sale's invoice number (and the cart is
otherwise valid), the whole operation fails with a client-visible
IntegrityError and nothing is written; on success the invoice has the
generated format and differs from every persisted invoice number. -/
theorem c9_invoice_no_retry
    (db : DB) (req : SaleRequest) (today suffix : String) (sid iid now : Nat)
    (hne : req.items ≠ [])
    (hv : validateStock db req.items = none) :
    (∀ s, s ∈ db.sales → s.invoice_number = invoiceOf today suffix →
      process_sale db req today suffix sid iid now =
        .err db "UNIQUE constraint failed: sales.invoice_number") ∧
    (∀ db3 sid' inv, process_sale db req today suffix sid iid now =
        .ok db3 sid' inv →
      inv = invoiceOf today suffix ∧ ∀ s ∈ db.sales, s.invoice_number ≠ inv) := by
  have hne' : req.items.isEmpty = false := by
    cases hi : req.items with
    | nil => exact absurd hi hne
    | cons a t => simp [hi]
  constructor
  · intro s hs hinv
    have hcol : db.sales.any
        (fun x => x.invoice_number == invoiceOf today suffix) = true :=
      List.any_eq_true.2 ⟨s, hs, by simpa using hinv⟩
    unfold process_sale
    simp [hne', hv, hcol]
  · intro db3 sid' inv hok
    unfold process_sale at hok
    simp only [hne', hv, Bool.false_eq_true] at hok
    by_cases hcol : db.sales.any
        (fun x => x.invoice_number == invoiceOf today suffix) = true
    · rw [if_pos hcol] at hok
      cases hok
    · rw [if_neg hcol] at hok
      have hfresh : ∀ s ∈ db.sales,
          s.invoice_number ≠ invoiceOf today suffix := by
        have h' : ∀ x ∈ db.sales,
            ¬ x.invoice_number = invoiceOf today suffix := by simpa using hcol
        exact h' 
      cases hloop : createSaleItems sid (invoiceOf today suffix)
          { db with sales := db.sales ++ [newSaleRow req today suffix sid now] }
          iid req.items with
      | failed dbp msg =>
        rw [hloop] at hok
        simp at hok
      | done db2 n =>
        simp only [hloop] at hok
        by_cases hpay : req.amount_paid > 0
        · rw [if_pos hpay] at hok
          injection hok with h1 h2 h3
          subst h3
          exact ⟨rfl, hfresh⟩
        · rw [if_neg hpay] at hok
          injection hok with h1 h2 h3
          subst h3
          exact ⟨rfl, hfresh⟩

def wSaleInv : Sale := { wSaleR with invoice_number := "INV-20260101-AAAAAA" }

def wDBcol : DB := { wDB with sales := [wSaleInv] }

/-- Counterexample to C9 as stated: a store already holding invoice
INV-20260101-AAAAAA makes the same draw fail the whole request with a
client-visible IntegrityError — there is no regenerate-and-retry. -/
theorem c9_counterexample :
    process_sale wDBcol wReqOne "20260101" "AAAAAA" 8 1 0 =
      .err wDBcol "UNIQUE constraint failed: sales.invoice_number" := by
  decide

/-- Witness for C9 (amended): the collision branch at a concrete store
(different autoincrement id than the counterexample's run). -/
theorem c9_invoice_no_retry_witness :
    process_sale wDBcol wReqOne "20260101" "AAAAAA" 9 2 3 =
      .err wDBcol "UNIQUE constraint failed: sales.invoice_number" :=
  (c9_invoice_no_retry wDBcol wReqOne "20260101" "AAAAAA" 9 2 3
    (by decide) (by decide)).1 wSaleInv (by decide) (by decide)

/-! ### Claim C10 -/

/-- Claim C10 (amended): `process_sale` accepts `amount_paid` strictly
above the total; for every such accepted cart with a positive
`amount_paid`, the persisted sale has balance clamped to 0, status
`paid`, and a stored `amount_paid` above the total, and exactly one
Payment row carries the full overpaid amount.  (A non-positive
`amount_paid` — possible only against a negative total — writes no
Payment row.) -/
theorem c10_overpayment_accepted
    (db : DB) (req : SaleRequest) (today suffix : String) (sid iid now : Nat)
    (hne : req.items ≠ [])
    (hv : validateStock db req.items = none)
    (hcol : ∀ s ∈ db.sales, s.invoice_number ≠ invoiceOf today suffix)
    (hfreshP : ∀ p ∈ db.payments, p.sale_id ≠ sid)
    (hgt : totalOf req < req.amount_paid)
    (hpos : 0 < req.amount_paid) :
    ∃ db3, process_sale db req today suffix sid iid now =
        .ok db3 sid (invoiceOf today suffix) ∧
      db3.sales = db.sales ++ [newSaleRow req today suffix sid now] ∧
      (newSaleRow req today suffix sid now).balance = 0 ∧
      (newSaleRow req today suffix sid now).payment_status = PayStatus.paid ∧
      (newSaleRow req today suffix sid now).amount_paid = req.amount_paid ∧
      (newSaleRow req today suffix sid now).total <
        (newSaleRow req today suffix sid now).amount_paid ∧
      paymentsFor db3 sid = [initialPayment req sid] := by
  obtain ⟨db3, hok, hsales, hpays⟩ :=
    process_sale_ok_shape db req today suffix sid iid now hne hv hcol
  refine ⟨db3, hok, hsales, ?_, ?_,
    newSaleRow_amount_paid req today suffix sid now, ?_, ?_⟩
  · rw [newSaleRow_balance, if_pos (by linarith)]
  · rw [newSaleRow_status, if_pos (by linarith)]
  · rw [newSaleRow_total, newSaleRow_amount_paid]
    exact hgt
  · simp only [paymentsFor]
    rw [hpays, if_pos hpos, List.filter_append]
    have h1 : db.payments.filter (fun p => p.sale_id == sid) = [] := by
      rw [List.filter_eq_nil_iff]
      intro p hp
      simpa using hfreshP p hp
    rw [h1]
    simp [initialPayment]

def wReqOver : SaleRequest :=
  { items := [{ product_id := 1, quantity := 1, price := 10, discount := 0 }],
    discount := some 20, amount_paid := 0, customer_name := "",
    customer_phone := "", payment_method := "cash", reference := "" }

/-- Counterexample to C10 as stated: a cart whose sale-level discount
exceeds the subtotal has total -10 < amount_paid = 0, is accepted, yet
carries NO Payment row (one is only written when amount_paid > 0) — so
not every accepted overpaying cart carries a Payment row for the full
amount. -/
theorem c10_counterexample :
    isOkS (process_sale wDB wReqOver "20260101" "AAAAAA" 1 1 0) = true ∧
    totalOf wReqOver < wReqOver.amount_paid ∧
    (paymentsFor (saleOutDB
      (process_sale wDB wReqOver "20260101" "AAAAAA" 1 1 0)) 1).length = 0 := by
  refine ⟨rfl, ?_, rfl⟩
  norm_num [totalOf, subtotalOf, saleDiscountOf, itemDiscountsOf, wReqOver]

def wReqOv2 : SaleRequest :=
  { items := [{ product_id := 1, quantity := 1, price := 10, discount := 0 }],
    discount := none, amount_paid := 50, customer_name := "",
    customer_phone := "", payment_method := "cash", reference := "" }

/-- Witness for C10 (amended): paying 50 against a total of 10 is
accepted; the sale persists balance 0 and status paid, and exactly one
Payment row carries the full 50. -/
theorem c10_overpayment_accepted_witness :
    isOkS (process_sale wDB wReqOv2 "20260101" "AAAAAA" 1 1 0) = true ∧
    (newSaleRow wReqOv2 "20260101" "AAAAAA" 1 0).balance = 0 ∧
    (newSaleRow wReqOv2 "20260101" "AAAAAA" 1 0).payment_status =
      PayStatus.paid ∧
    paymentsFor (saleOutDB (process_sale wDB wReqOv2 "20260101" "AAAAAA" 1 1 0))
      1 = [initialPayment wReqOv2 1] := by
  obtain ⟨db3, hok, hsales, hbal, hst, hap, hlt, hpay⟩ :=
    c10_overpayment_accepted wDB wReqOv2 "20260101" "AAAAAA" 1 1 0
      (by decide) (by decide) (by decide) (by decide)
      (by norm_num [totalOf, subtotalOf, saleDiscountOf, itemDiscountsOf, wReqOv2])
      (by norm_num [wReqOv2])
  rw [hok]
  exact ⟨rfl, hbal, hst, hpay⟩

end Inventory
